import Mathlib

/-!
Shallow embedding of the PyIntfLab automation scripts
(`download_S1_SLC_orbit.py`, `unzip_S1_SLC.py`, `RunStack.py`,
`download_S1_SLC_dem.py`, `Stack.py`) and proofs about the frozen claims.

Pure logic (string manipulation, date arithmetic, worker-count policy,
control flow of the batch runners) is translated directly from the Python
source.  Side-effecting collaborators (the filesystem, the HTTP endpoint,
the external executables) are modelled as explicit environments/oracles:
a task's external action is a boolean (or outcome-typed) input, and the
visible filesystem state is a predicate on path strings.
-/

set_option maxRecDepth 8000

namespace PyIntfLab

/-! ### Common string helpers (counterparts of Python str/os.path/pathlib) -/

/-- Split a character list at every occurrence of `sep`, keeping empty
pieces, as Python's `str.split(sep)` does for a one-character separator.
`splitOnChar '_' "a__b"` gives `["a", "", "b"]`. -/
def splitOnChar (sep : Char) : List Char → List (List Char)
  | [] => [[]]
  | c :: rest =>
    let r := splitOnChar sep rest
    if c = sep then [] :: r
    else
      match r with
      | [] => [[c]]
      | g :: gs => (c :: g) :: gs

/-- Final path component, as `os.path.basename` / `pathlib.PurePath.name`:
the text after the last slash. -/
def basename (p : String) : String :=
  String.mk ((splitOnChar '/' p.toList).getLastD [])

/-- Index of the last dot in a character list, if any. -/
def lastDotIdx : List Char → Option Nat
  | [] => none
  | c :: rest =>
    match lastDotIdx rest with
    | some i => some (i + 1)
    | none => if c = '.' then some 0 else none

/-- Python `pathlib.PurePath.stem` applied to a bare file name: the name
with its final suffix removed.  The suffix is nonempty only when the last
dot is neither the first nor the last character of the name. -/
def pathStem (name : String) : String :=
  let cs := name.toList
  match lastDotIdx cs with
  | some i => if 0 < i ∧ i + 1 < cs.length then String.mk (cs.take i) else name
  | none => name

/-- Whether the first list is an initial segment of the second. -/
def listStartsWith : List Char → List Char → Bool
  | [], _ => true
  | _ :: _, [] => false
  | a :: as, b :: bs => a == b && listStartsWith as bs

/-- Python's `needle in hay` on strings, over character lists. -/
def listContainsSub (needle : List Char) : List Char → Bool
  | [] => needle.isEmpty
  | c :: rest => listStartsWith needle (c :: rest) || listContainsSub needle rest

/-- `s.startswith(pre)`, by characters. -/
def strStartsWith (pre s : String) : Bool :=
  listStartsWith pre.toList s.toList

/-- Two-digit zero padding, Python's `f"{i:02d}"` for nonnegative `i`. -/
def pad2 (i : Nat) : String :=
  if i < 10 then "0" ++ toString i else toString i

/-- Python `int(s)` restricted to plain digit strings: `some` of the value
when `cs` is a nonempty run of decimal digits, `none` (a `ValueError`)
otherwise. -/
def parseNat? (cs : List Char) : Option Nat :=
  if cs ≠ [] ∧ cs.all Char.isDigit then
    some (cs.foldl (fun acc c => acc * 10 + (c.toNat - 48)) 0)
  else none

/-- Clamp an index of a Python slice to `[0, n]`, resolving negative
indices from the end of the sequence. -/
def pySliceIdx (n : Nat) (i : Int) : Nat :=
  (max 0 (min (n : Int) (if i < 0 then (n : Int) + i else i))).toNat

/-- Python slicing `s[a:b]` with possibly negative bounds. -/
def pySliceStr (s : String) (a b : Int) : String :=
  let cs := s.toList
  let lo := pySliceIdx cs.length a
  let hi := pySliceIdx cs.length b
  String.mk ((cs.drop lo).take (hi - lo))

/-! ### Worker-count policy

`download_S1_SLC_orbit.py` line 87: `njobs = min(max(cpu_count() // 4, 2), 8)`.
`unzip_S1_SLC.py` lines 99-100: when the caller passes `n_jobs=None`,
`n_jobs = min(max(int(cpu_count() / 4), 2), 8)`; for every machine CPU
count (an integer far below 2^53) `int(c / 4)` equals floor division
`c // 4`, which is `Nat` division here. -/

/-- Pool size computed by the orbit downloader. -/
def njobs_orbit (cpuCount : Nat) : Nat :=
  min (max (cpuCount / 4) 2) 8

/-- Pool size computed by the parallel unzipper; `override` is its
`n_jobs` argument (`none` models Python `None`). -/
def n_jobs_unzip (override : Option Nat) (cpuCount : Nat) : Nat :=
  match override with
  | some n => n
  | none => min (max (cpuCount / 4) 2) 8

/-- The spec's worker-count policy, written from the spec's words:
`clamp(available_parallelism / divisor, min_floor, max_ceiling)`. -/
def clampSpec (x lo hi : Nat) : Nat :=
  min (max x lo) hi

/-! ### unzip_S1_SLC.py: single-archive extraction

`unzip_S1_SLC(zip_file, target_dir)` is modelled against an environment
carrying the observable filesystem facts it consults: which directories
exist before the call, the archive's entry list, and whether (and where)
an exception interrupts the body of the `try` block.  `failAt = some k`
with `k ≤ entries.length` means the `k`-th extraction (or, at
`k = entries.length`, the final log write) raises; the first `k` entries
are already on disk at that point.  `failAt = some k` with
`k > entries.length`, like `failAt = none`, means no exception occurs. -/

structure UnzipEnv where
  dirExists : String → Bool
  entries : List String
  failAt : Option Nat

structure UnzipResult where
  success : Bool
  extracted : List String
  dirExistsAfter : String → Bool

/-- The skip marker: `safe_name = zip_path.stem + ".SAFE"` joined under
the target directory (`unzip_S1_SLC.py` lines 33-34). -/
def safeDirOf (zip_file target_dir : String) : String :=
  target_dir ++ "/" ++ pathStem (basename zip_file) ++ ".SAFE"

/-- Whether extracting the listed archive members under `target_dir`
creates directory `d`: some member path equals `d` or lies strictly
below it. -/
def createsDir (target_dir : String) (extracted : List String) (d : String) : Bool :=
  extracted.any (fun e =>
    let p := target_dir ++ "/" ++ e
    p == d || strStartsWith (d ++ "/") p)

/-- `shutil.rmtree(root)` on the directory-existence map: `root` and
everything below it stop existing. -/
def removeTree (root : String) (fs : String → Bool) : String → Bool :=
  fun d => if d == root || strStartsWith (root ++ "/") d then false else fs d

/-- Lines 73-76 of `unzip_S1_SLC.py`: in the except branch, remove the
`.SAFE` directory when it exists. -/
def failCleanup (safe_dir : String) (pre : String → Bool) : String → Bool :=
  if pre safe_dir then removeTree safe_dir pre else pre

/-- `unzip_S1_SLC.py` lines 19-78.  Skip (reporting success) when the
derived `.SAFE` directory already exists; otherwise extract the entries
in order; on an exception, log it, remove the partially created `.SAFE`
directory when present, and report failure. -/
def unzip_S1_SLC (env : UnzipEnv) (zip_file target_dir : String) : UnzipResult :=
  let safe_dir := safeDirOf zip_file target_dir
  if env.dirExists safe_dir then
    { success := true, extracted := [], dirExistsAfter := env.dirExists }
  else
    match env.failAt with
    | some k =>
      if k ≤ env.entries.length then
        let exd := env.entries.take k
        let pre := fun d => env.dirExists d || createsDir target_dir exd d
        { success := false, extracted := exd,
          dirExistsAfter := failCleanup safe_dir pre }
      else
        { success := true, extracted := env.entries,
          dirExistsAfter := fun d => env.dirExists d || createsDir target_dir env.entries d }
    | none =>
      { success := true, extracted := env.entries,
        dirExistsAfter := fun d => env.dirExists d || createsDir target_dir env.entries d }

/-- Per-file success flags of the parallel batch
(`unzip_S1_SLC.py` lines 105-107): one boolean per input zip, in order. -/
def unzipBatchResults (envf : String → UnzipEnv) (zip_files : List String)
    (target_dir : String) : List Bool :=
  zip_files.map (fun z => (unzip_S1_SLC (envf z) z target_dir).success)

/-- `unzip_S1_SLC_list` (lines 81-122): runs the batch and returns
`(successful, failed)` where `successful = sum(results)` and
`failed = len(results) - successful`. -/
def unzip_S1_SLC_list (envf : String → UnzipEnv) (zip_files : List String)
    (target_dir : String) : Nat × Nat :=
  let results := unzipBatchResults envf zip_files target_dir
  let successful := results.countP (fun b => b)
  (successful, results.length - successful)

/-! ### download_S1_SLC_orbit.py: orbit task enumeration

`downloda_S1_SLC_orbit_list` (the source's spelling) fetches the remote
directory listing, derives from every local `S1A*.zip` file an
acquisition date, and collects one download task for every listing entry
whose fixed-offset date substrings equal the previous and the next day.
The remote listing is modelled as the list `lst` of entry strings the
source builds from the response, and the glob result as the list of
local file names; `none` models the enumeration dying of an uncaught
exception (malformed date, `datetime` range error). -/

def ORBIT_URL : String := "https://s1qc.asf.alaska.edu/aux_poeorb/"

/-- Gregorian leap year, as `datetime` uses. -/
def isLeap (y : Nat) : Bool :=
  y % 4 == 0 && (y % 100 != 0 || y % 400 == 0)

def daysInMonth (y m : Nat) : Nat :=
  if m = 2 then (if isLeap y then 29 else 28)
  else if m = 4 ∨ m = 6 ∨ m = 9 ∨ m = 11 then 30
  else 31

/-- `datetime(y, m, d)` is constructible. -/
def validDate (y m d : Nat) : Bool :=
  decide (1 ≤ y ∧ y ≤ 9999 ∧ 1 ≤ m ∧ m ≤ 12 ∧ 1 ≤ d) && decide (d ≤ daysInMonth y m)

/-- `dt + timedelta(days=1)`. -/
def nextDay : Nat × Nat × Nat → Nat × Nat × Nat
  | (y, m, d) =>
    if d < daysInMonth y m then (y, m, d + 1)
    else if m < 12 then (y, m + 1, 1)
    else (y + 1, 1, 1)

/-- `dt - timedelta(days=1)`. -/
def prevDay : Nat × Nat × Nat → Nat × Nat × Nat
  | (y, m, d) =>
    if 1 < d then (y, m, d - 1)
    else if 1 < m then (y, m - 1, daysInMonth y (m - 1))
    else (y - 1, 12, 31)

/-- The source's date string `f"{dt.year}{dt.month:02d}{dt.day:02d}"`. -/
def fmtDate : Nat × Nat × Nat → String
  | (y, m, d) => toString y ++ pad2 m ++ pad2 d

/-- `file.split('_')[-5][:8]` parsed as `int` year/month/day and checked
by the `datetime` constructor (lines 73-75): `none` when Python raises. -/
def extractDate (file : String) : Option (Nat × Nat × Nat) :=
  let parts := splitOnChar '_' file.toList
  if parts.length < 5 then none
  else
    let ds := (parts.getD (parts.length - 5) []).take 8
    match parseNat? (ds.take 4), parseNat? ((ds.drop 4).take 2), parseNat? (ds.drop 6) with
    | some y, some m, some d => if validDate y m d then some (y, m, d) else none
    | _, _, _ => none

/-- Line 81: `filename[-35:-27] == prev_dt_str and filename[-19:-11] == next_dt_str`. -/
def matchesWindow (prevS nextS fn : String) : Bool :=
  pySliceStr fn (-35) (-27) == prevS && pySliceStr fn (-19) (-11) == nextS

/-- Tasks contributed by one local file (lines 72-85): one `(url, path)`
pair per matching listing entry, in listing order.  `none` when the date
cannot be parsed or the day shift leaves `datetime`'s range. -/
def orbitTasksForFile (lst : List String) (orbits_dir file : String) :
    Option (List (String × String)) :=
  match extractDate file with
  | none => none
  | some ymd =>
    if ymd = (1, 1, 1) ∨ ymd = (9999, 12, 31) then none
    else
      some ((lst.filter (matchesWindow (fmtDate (prevDay ymd)) (fmtDate (nextDay ymd)))).map
        (fun fn => (ORBIT_URL ++ fn, orbits_dir ++ "/" ++ fn)))

/-- The full `download_tasks` list built by `downloda_S1_SLC_orbit_list`
over the local files, in glob order; `none` when any file makes the
function raise. -/
def downloda_S1_SLC_orbit_tasks (lst : List String) (orbits_dir : String) :
    List String → Option (List (String × String))
  | [] => some []
  | f :: fs =>
    match orbitTasksForFile lst orbits_dir f, downloda_S1_SLC_orbit_tasks lst orbits_dir fs with
    | some t, some rest => some (t ++ rest)
    | _, _ => none

/-- The validity-window date strings derived from one local file. -/
def windowStrings (file : String) : Option (String × String) :=
  match extractDate file with
  | none => none
  | some ymd => some (fmtDate (prevDay ymd), fmtDate (nextDay ymd))

/-- Number of remote entries matching the file's validity window. -/
def countMatchingEntries (lst : List String) (file : String) : Nat :=
  match windowStrings file with
  | none => 0
  | some pn => lst.countP (matchesWindow pn.1 pn.2)

/-- `download_file` (lines 39-56): attempts one fetch and catches every
exception, printing it; the returned boolean is the only trace of the
outcome and is discarded by the caller. -/
def download_file (fetchOk : Bool) : Bool := fetchOk

/-- The parallel download batch (lines 89-91): every task is attempted,
each attempt's exception being absorbed inside `download_file`. -/
def downloda_S1_SLC_orbit_run (tasks : List (String × String))
    (fetchOk : String × String → Bool) : List Bool :=
  tasks.map (fun t => download_file (fetchOk t))

/-- The orbit entry point (lines 110-115): it invokes the batch and
returns; no outcome reaches `sys.exit`, so the interpreter exits 0
whatever the per-task results were. -/
def orbit_main_exitcode (tasks : List (String × String))
    (fetchOk : String × String → Bool) : Nat :=
  let _results := downloda_S1_SLC_orbit_run tasks fetchOk
  0

/-! ### RunStack.py: sequential step runner

`run_stack_processing(run_files_dir, cores, expected_files)` is modelled
from the list of found `run_*` scripts onwards (`find_run_files`
failures only make the function return `False` before the loop).  The
oracle `outcome i` is the result of the single `subprocess.run`
invocation of step `i`; `userContinue` is the `y/N` answer to the
count-mismatch prompt. -/

inductive RunOutcome where
  | ok : RunOutcome
  | calledProcessError : Nat → RunOutcome
  | fileNotFound : RunOutcome
  | otherError : RunOutcome
deriving DecidableEq

def RunOutcome.isOk : RunOutcome → Bool
  | .ok => true
  | _ => false

/-- `f"run_{i:02d}"`. -/
def stepTag (i : Nat) : String :=
  "run_" ++ pad2 i

/-- Line 93: scripts whose basename contains the step tag. -/
def matchedScripts (scripts : List String) (i : Nat) : List String :=
  scripts.filter (fun s => listContainsSub (stepTag i).toList (basename s).toList)

/-- The `for i in range(1, expected_files + 1)` loop (lines 91-133) over
the remaining step indices.  Returns (ran to completion, successful step
count, steps invoked with the script each ran).  A step with no matching
script is skipped; a non-`ok` outcome returns `False` at once. -/
def runStackLoop (scripts : List String) (outcome : Nat → RunOutcome) :
    List Nat → Bool × Nat × List (Nat × String)
  | [] => (true, 0, [])
  | i :: rest =>
    match matchedScripts scripts i with
    | [] => runStackLoop scripts outcome rest
    | s :: _ =>
      match outcome i with
      | RunOutcome.ok =>
        let r := runStackLoop scripts outcome rest
        (r.1, r.2.1 + 1, (i, s) :: r.2.2)
      | _ => (false, 0, [(i, s)])

/-- Line 142: the number of found scripts whose basename contains
`run_{i:02d}` for some `i` in `1..expected`. -/
def foundAmongExpected (scripts : List String) (expected : Nat) : Nat :=
  (scripts.filter (fun s =>
    (List.range' 1 expected).any (fun i => listContainsSub (stepTag i).toList (basename s).toList))).length

/-- `run_stack_processing` from the prompt onwards: answer `N` to the
count-mismatch prompt and the function returns `False` before the loop;
otherwise the loop runs and the verdict is
`success_count == foundAmongExpected` (line 142).  The second component
is the list of invoked steps. -/
def run_stack_processing (scripts : List String) (userContinue : Bool)
    (outcome : Nat → RunOutcome) (expected : Nat) : Bool × List (Nat × String) :=
  if scripts.length ≠ expected ∧ userContinue = false then (false, [])
  else
    let r := runStackLoop scripts outcome (List.range' 1 expected)
    (r.1 && (r.2.1 == foundAmongExpected scripts expected), r.2.2)

/-- The RunStack entry point (lines 161-172): `sys.exit(0 if success else 1)`. -/
def runstack_main_exitcode (scripts : List String) (userContinue : Bool)
    (outcome : Nat → RunOutcome) (expected : Nat) : Nat :=
  if (run_stack_processing scripts userContinue outcome expected).1 then 0 else 1

/-! ### download_S1_SLC_dem.py / Stack.py: coordinate validation and entry points

Python floats compare like the rational numbers they denote, so the
coordinate arguments are modelled as `ℚ`. -/

/-- `validate_coordinates` of `download_S1_SLC_dem.py` (lines 96-114). -/
def validate_coordinates (lat_min lat_max lon_min lon_max : ℚ) : Bool :=
  if lat_min ≥ lat_max then false
  else if lon_min ≥ lon_max then false
  else if ¬ (-90 ≤ lat_min ∧ lat_min ≤ 90 ∧ -90 ≤ lat_max ∧ lat_max ≤ 90) then false
  else if ¬ (-180 ≤ lon_min ∧ lon_min ≤ 180 ∧ -180 ≤ lon_max ∧ lon_max ≤ 180) then false
  else true

namespace StackSentinel

/-- `validate_coordinates` of `Stack.py` (lines 165-183), character for
character the same checks as the one in `download_S1_SLC_dem.py`. -/
def validate_coordinates (lat_min lat_max lon_min lon_max : ℚ) : Bool :=
  if lat_min ≥ lat_max then false
  else if lon_min ≥ lon_max then false
  else if ¬ (-90 ≤ lat_min ∧ lat_min ≤ 90 ∧ -90 ≤ lat_max ∧ lat_max ≤ 90) then false
  else if ¬ (-180 ≤ lon_min ∧ lon_min ≤ 180 ∧ -180 ≤ lon_max ∧ lon_max ≤ 180) then false
  else true

end StackSentinel

/-- `download_S1_SLC_dem` (lines 16-73): runs `dem.py` and reports its
outcome; any failure (non-zero exit, missing tool, other exception) is
caught and turned into `False`.  `toolOk` is the oracle for that run. -/
def download_S1_SLC_dem (toolOk : Bool) : Bool := toolOk

/-- The DEM entry point (lines 117-134): validation first, then the
download; the second component records whether the download (the only
network/file work) was invoked at all. -/
def dem_main_run (lat_min lat_max lon_min lon_max : ℚ) (toolOk : Bool) : Nat × Bool :=
  if validate_coordinates lat_min lat_max lon_min lon_max then
    ((if download_S1_SLC_dem toolOk then 0 else 1), true)
  else (1, false)

/-- Exit code of the DEM entry point. -/
def dem_main_exitcode (lat_min lat_max lon_min lon_max : ℚ) (toolOk : Bool) : Nat :=
  (dem_main_run lat_min lat_max lon_min lon_max toolOk).1

/-- The unzip entry point (`unzip_S1_SLC.py` lines 175-205).  Its first
statement calls `init_pysarlab()`, a name defined nowhere in the
repository and not imported, so the interpreter raises `NameError`
before any argument is read and the process always exits 1 via the
traceback; the success/failure accounting below it is unreachable. -/
def unzip_main_exitcode : Nat := 1

/-! ### Concrete data used by witnesses and counterexamples -/

/-- An environment in which the derived `.SAFE` directory is absent, the
archive holds one member below `X.SAFE`, and no exception occurs. -/
def envCleanRun : UnzipEnv :=
  { dirExists := fun _ => false, entries := ["X.SAFE/manifest.safe"], failAt := none }

/-- An environment whose second extraction raises: one member is already
on disk when the exception hits. -/
def envFailRun : UnzipEnv :=
  { dirExists := fun _ => false,
    entries := ["X.SAFE/manifest.safe", "X.SAFE/measurement/a.tiff"], failAt := some 1 }

/-- An environment that makes a task fail, for the fault-isolation witness. -/
def envBadTask : UnzipEnv :=
  { dirExists := fun _ => false, entries := ["d"], failAt := some 0 }

/-- An environment in which everything goes right. -/
def envOkTask : UnzipEnv :=
  { dirExists := fun _ => false, entries := [], failAt := none }

/-- Batch environment: only the file named "bad" fails. -/
def envfMixed (z : String) : UnzipEnv :=
  if z = "bad" then envBadTask else envOkTask

/-- Batch environment: every file succeeds. -/
def envfAllOk (_z : String) : UnzipEnv := envOkTask

/-- A realistic listing entry: a precise-orbit file whose validity window
is 2023-09-04 .. 2023-09-06. -/
def entry0 : String :=
  "S1A_OPER_AUX_POEORB_OPOD_20230925T080750_V20230904T225942_20230906T005942.EOF"

/-- A local acquisition of 2023-09-05. -/
def locA : String :=
  "S1A_IW_SLC__1SDV_20230905T000000_20230905T000030_050000_060000_AAAA.SAFE.zip"

/-- A second, distinct local acquisition of the same day. -/
def locB : String :=
  "S1A_IW_SLC__1SDV_20230905T111111_20230905T111141_050001_060001_BBBB.SAFE.zip"

/-- The download task both local files generate from `entry0`. -/
def taskE : String × String :=
  (ORBIT_URL ++ entry0, "orbits/" ++ entry0)

/-- Five step scripts for the fail-fast witness. -/
def scripts5 : List String :=
  ["run_01_a", "run_02_a", "run_03_a", "run_04_a", "run_05_a"]

/-- Oracle under which step 3 exits non-zero and all others succeed. -/
def oc3 (i : Nat) : RunOutcome :=
  if i = 3 then RunOutcome.calledProcessError 1 else RunOutcome.ok

/-- Oracle under which step 1 succeeds and every later step fails. -/
def oc9 (i : Nat) : RunOutcome :=
  if i = 1 then RunOutcome.ok else RunOutcome.calledProcessError 1

/-! ### Helper lemmas -/

/-- Cleanup makes the `.SAFE` directory absent, whatever the prior map said. -/
theorem failCleanup_self (safe : String) (pre : String → Bool) :
    failCleanup safe pre safe = false := by
  unfold failCleanup removeTree
  cases hp : pre safe
  · simp [hp]
  · simp

/-- After a failing run of `unzip_S1_SLC`, the skip marker is absent. -/
theorem unzip_fail_post (env : UnzipEnv) (zf td : String)
    (hfail : (unzip_S1_SLC env zf td).success = false) :
    (unzip_S1_SLC env zf td).dirExistsAfter (safeDirOf zf td) = false := by
  cases hd : env.dirExists (safeDirOf zf td) with
  | true => simp [unzip_S1_SLC, hd] at hfail
  | false =>
    cases hk : env.failAt with
    | none => simp [unzip_S1_SLC, hd, hk] at hfail
    | some k =>
      by_cases hkl : k ≤ env.entries.length
      · simp only [unzip_S1_SLC, hd, hk, hkl, Bool.false_eq_true, if_false, if_true]
        exact failCleanup_self _ _
      · simp [unzip_S1_SLC, hd, hk, hkl] at hfail

/-! ### C1 -/

/-- C1: with no explicit override, both parallel executors size their
worker pool as `clamp(cpu_count / 4, 2, 8)`; in particular the pool is 4
for 16 CPUs and 2 for 2 CPUs. -/
theorem c1_worker_pool_clamp :
    (∀ c : Nat, njobs_orbit c = clampSpec (c / 4) 2 8) ∧
    (∀ c : Nat, n_jobs_unzip none c = clampSpec (c / 4) 2 8) ∧
    njobs_orbit 16 = 4 ∧ njobs_orbit 2 = 2 ∧
    n_jobs_unzip none 16 = 4 ∧ n_jobs_unzip none 2 = 2 :=
  ⟨fun _ => rfl, fun _ => rfl, rfl, rfl, rfl, rfl⟩

/-! ### C2 -/

/-- C2: when the derived `stem + ".SAFE"` destination directory already
exists, `unzip_S1_SLC` reports success, extracts nothing and leaves the
filesystem untouched; consequently a second run over an archive whose
first run succeeded and left the marker in place again reports success
and extracts nothing. -/
theorem c2_skip_if_extracted :
    (∀ (env : UnzipEnv) (zf td : String),
       env.dirExists (safeDirOf zf td) = true →
       unzip_S1_SLC env zf td =
         { success := true, extracted := [], dirExistsAfter := env.dirExists }) ∧
    (∀ (env₁ env₂ : UnzipEnv) (zf td : String),
       (unzip_S1_SLC env₁ zf td).success = true →
       (unzip_S1_SLC env₁ zf td).dirExistsAfter (safeDirOf zf td) = true →
       env₂.dirExists = (unzip_S1_SLC env₁ zf td).dirExistsAfter →
       unzip_S1_SLC env₂ zf td =
         { success := true, extracted := [], dirExistsAfter := env₂.dirExists }) := by
  constructor
  · intro env zf td h
    simp [unzip_S1_SLC, h]
  · intro env₁ env₂ zf td _ hafter heq
    have h2 : env₂.dirExists (safeDirOf zf td) = true := by rw [heq]; exact hafter
    simp [unzip_S1_SLC, h2]

/-- Witness for C2: a clean first extraction of `X.zip` (entries under
`X.SAFE`) leaves the marker, and the second run skips with success. -/
theorem c2_witness :
    unzip_S1_SLC
      { dirExists := (unzip_S1_SLC envCleanRun "X.zip" "t").dirExistsAfter,
        entries := ["X.SAFE/manifest.safe"], failAt := none } "X.zip" "t" =
      { success := true, extracted := [],
        dirExistsAfter := (unzip_S1_SLC envCleanRun "X.zip" "t").dirExistsAfter } :=
  c2_skip_if_extracted.2 envCleanRun _ "X.zip" "t" (by decide) (by decide) rfl

/-! ### C10 -/

/-- C10: a failing extraction removes the partially created `.SAFE`
directory before returning, so the skip marker is never left behind by a
failure, and a later run with no exception re-extracts the archive
instead of skipping it. -/
theorem c10_cleanup_on_failure :
    ∀ (env : UnzipEnv) (zf td : String),
      (unzip_S1_SLC env zf td).success = false →
      (unzip_S1_SLC env zf td).dirExistsAfter (safeDirOf zf td) = false ∧
      (∀ env₂ : UnzipEnv,
        env₂.dirExists = (unzip_S1_SLC env zf td).dirExistsAfter →
        env₂.failAt = none →
        unzip_S1_SLC env₂ zf td =
          { success := true, extracted := env₂.entries,
            dirExistsAfter := fun d => env₂.dirExists d || createsDir td env₂.entries d }) := by
  intro env zf td hfail
  have hpost := unzip_fail_post env zf td hfail
  refine ⟨hpost, ?_⟩
  intro env₂ heq hnone
  have h2 : env₂.dirExists (safeDirOf zf td) = false := by rw [heq]; exact hpost
  simp [unzip_S1_SLC, h2, hnone]

/-- Witness for C10: the run of `envFailRun` fails after one entry; the
marker is gone afterwards and a clean re-run extracts everything. -/
theorem c10_witness :
    (unzip_S1_SLC envFailRun "X.zip" "t").dirExistsAfter (safeDirOf "X.zip" "t") = false ∧
    unzip_S1_SLC
      { dirExists := (unzip_S1_SLC envFailRun "X.zip" "t").dirExistsAfter,
        entries := ["X.SAFE/manifest.safe"], failAt := none } "X.zip" "t" =
      { success := true, extracted := ["X.SAFE/manifest.safe"],
        dirExistsAfter := fun d =>
          (unzip_S1_SLC envFailRun "X.zip" "t").dirExistsAfter d ||
            createsDir "t" ["X.SAFE/manifest.safe"] d } := by
  have h := c10_cleanup_on_failure envFailRun "X.zip" "t" (by decide)
  exact ⟨h.1, h.2 _ rfl rfl⟩

/-! ### C7 -/

/-- C7: an exception in one task's action is absorbed inside that task:
the task reports `False` (first part), the batch still yields one
outcome per input (lengths), and any change confined to one task's
environment leaves every sibling's outcome unchanged, in both the unzip
batch and the orbit download batch. -/
theorem c7_fault_isolation :
    (∀ (env : UnzipEnv) (zf td : String) (k : Nat),
       env.dirExists (safeDirOf zf td) = false → env.failAt = some k →
       k ≤ env.entries.length →
       (unzip_S1_SLC env zf td).success = false) ∧
    (∀ (envf envf' : String → UnzipEnv) (zips : List String) (td z0 : String),
       (∀ z, z ≠ z0 → envf z = envf' z) →
       (unzipBatchResults envf zips td).length = zips.length ∧
       (∀ k : Nat, zips[k]? ≠ some z0 →
          (unzipBatchResults envf zips td)[k]? = (unzipBatchResults envf' zips td)[k]?)) ∧
    (∀ (tasks : List (String × String)) (f f' : String × String → Bool)
       (t0 : String × String),
       (∀ t, t ≠ t0 → f t = f' t) →
       (downloda_S1_SLC_orbit_run tasks f).length = tasks.length ∧
       (∀ k : Nat, tasks[k]? ≠ some t0 →
          (downloda_S1_SLC_orbit_run tasks f)[k]? = (downloda_S1_SLC_orbit_run tasks f')[k]?)) := by
  refine ⟨?_, ?_, ?_⟩
  · intro env zf td k hd hk hkl
    simp [unzip_S1_SLC, hd, hk, hkl]
  · intro envf envf' zips td z0 hsib
    refine ⟨by simp [unzipBatchResults], ?_⟩
    intro k hk
    unfold unzipBatchResults
    rw [List.getElem?_map, List.getElem?_map]
    cases hz : zips[k]? with
    | none => rfl
    | some z =>
      rw [hz] at hk
      have hne : z ≠ z0 := fun he => hk (by rw [he])
      simp [hsib z hne]
  · intro tasks f f' t0 hsib
    refine ⟨by simp [downloda_S1_SLC_orbit_run], ?_⟩
    intro k hk
    unfold downloda_S1_SLC_orbit_run
    rw [List.getElem?_map, List.getElem?_map]
    cases ht : tasks[k]? with
    | none => rfl
    | some t =>
      rw [ht] at hk
      have hne : t ≠ t0 := fun he => hk (by rw [he])
      simp [download_file, hsib t hne]

/-- Witness for C7: in a three-file batch where only the file named
"bad" fails, every file still gets an outcome and the first sibling's
outcome is what it is in the all-good batch. -/
theorem c7_witness :
    (unzipBatchResults envfMixed ["g1", "bad", "g2"] "t").length = 3 ∧
    (unzipBatchResults envfMixed ["g1", "bad", "g2"] "t")[0]? =
      (unzipBatchResults envfAllOk ["g1", "bad", "g2"] "t")[0]? := by
  have h := c7_fault_isolation.2.1 envfMixed envfAllOk ["g1", "bad", "g2"] "t" "bad"
    (fun z hz => by simp [envfMixed, envfAllOk, if_neg hz])
  exact ⟨h.1, h.2 0 (by decide)⟩

/-! ### RunStack loop lemmas -/

/-- Every element of `range' s n` is at least `s`. -/
theorem mem_range'_lb : ∀ (n s x : Nat), x ∈ List.range' s n → s ≤ x := by
  intro n
  induction n with
  | zero => intro s x h; simp [List.range'] at h
  | succ m ih =>
    intro s x h
    rw [List.range'] at h
    rcases List.mem_cons.mp h with rfl | h'
    · exact Nat.le_refl x
    · exact Nat.le_of_succ_le (ih (s + 1) x h')

/-- `range' s n` is strictly increasing. -/
theorem range'_pairwise_lt : ∀ (n s : Nat), List.Pairwise (· < ·) (List.range' s n) := by
  intro n
  induction n with
  | zero => intro s; simp [List.range']
  | succ m ih =>
    intro s
    rw [List.range']
    refine List.Pairwise.cons ?_ (ih (s + 1))
    intro x hx
    exact Nat.lt_of_lt_of_le (Nat.lt_succ_self s) (mem_range'_lb m (s + 1) x hx)

/-- A step invoked by the loop comes from the index list. -/
theorem runStackLoop_mem_list (sc : List String) (oc : Nat → RunOutcome) :
    ∀ (l : List Nat) (i : Nat) (s : String),
      (i, s) ∈ (runStackLoop sc oc l).2.2 → i ∈ l := by
  intro l
  induction l with
  | nil => intro i s h; simp [runStackLoop] at h
  | cons a rest ih =>
    intro i s h
    cases hm : matchedScripts sc a with
    | nil =>
      simp only [runStackLoop, hm] at h
      exact List.mem_cons_of_mem a (ih i s h)
    | cons s0 tl =>
      cases ho : oc a with
      | ok =>
        simp only [runStackLoop, hm, ho] at h
        rcases List.mem_cons.mp h with he | hmem
        · rw [Prod.mk.injEq] at he
          exact he.1 ▸ List.mem_cons_self a rest
        · exact List.mem_cons_of_mem a (ih i s hmem)
      | calledProcessError c =>
        simp only [runStackLoop, hm, ho, List.mem_singleton] at h
        rw [Prod.mk.injEq] at h
        exact h.1 ▸ List.mem_cons_self a rest
      | fileNotFound =>
        simp only [runStackLoop, hm, ho, List.mem_singleton] at h
        rw [Prod.mk.injEq] at h
        exact h.1 ▸ List.mem_cons_self a rest
      | otherError =>
        simp only [runStackLoop, hm, ho, List.mem_singleton] at h
        rw [Prod.mk.injEq] at h
        exact h.1 ▸ List.mem_cons_self a rest

/-- Fail-fast over a strictly increasing index list: a failing invoked
step makes the loop report `false`, and no later index is invoked. -/
theorem runStackLoop_fail_fast (sc : List String) (oc : Nat → RunOutcome) :
    ∀ (l : List Nat), List.Pairwise (· < ·) l →
      ∀ (i : Nat) (s : String),
        (i, s) ∈ (runStackLoop sc oc l).2.2 →
        oc i ≠ RunOutcome.ok →
        (runStackLoop sc oc l).1 = false ∧
        (∀ (j : Nat) (s' : String), (j, s') ∈ (runStackLoop sc oc l).2.2 → j ≤ i) := by
  intro l
  induction l with
  | nil => intro _ i s h; simp [runStackLoop] at h
  | cons a rest ih =>
    intro hpw i s h hnok
    have hlt := (List.pairwise_cons.mp hpw).1
    have hpw' := (List.pairwise_cons.mp hpw).2
    cases hm : matchedScripts sc a with
    | nil =>
      simp only [runStackLoop, hm] at h ⊢
      exact ih hpw' i s h hnok
    | cons s0 tl =>
      cases ho : oc a with
      | ok =>
        simp only [runStackLoop, hm, ho] at h ⊢
        rcases List.mem_cons.mp h with he | hmem
        · rw [Prod.mk.injEq] at he
          exact absurd (he.1 ▸ ho) hnok
        · obtain ⟨hc, hb⟩ := ih hpw' i s hmem hnok
          refine ⟨hc, ?_⟩
          intro j s' hj
          rcases List.mem_cons.mp hj with hje | hjm
          · rw [Prod.mk.injEq] at hje
            have hi_rest : i ∈ rest := runStackLoop_mem_list sc oc rest i s hmem
            exact hje.1 ▸ Nat.le_of_lt (hlt i hi_rest)
          · exact hb j s' hjm
      | calledProcessError c =>
        simp only [runStackLoop, hm, ho, List.mem_singleton, Prod.mk.injEq] at h ⊢
        refine ⟨trivial, ?_⟩
        intro j s' hj
        rw [hj.1, h.1]
      | fileNotFound =>
        simp only [runStackLoop, hm, ho, List.mem_singleton, Prod.mk.injEq] at h ⊢
        refine ⟨trivial, ?_⟩
        intro j s' hj
        rw [hj.1, h.1]
      | otherError =>
        simp only [runStackLoop, hm, ho, List.mem_singleton, Prod.mk.injEq] at h ⊢
        refine ⟨trivial, ?_⟩
        intro j s' hj
        rw [hj.1, h.1]

/-! ### C4 -/

/-- C4: if the external command of an invoked step fails (non-zero exit,
missing tool or any other error), `run_stack_processing` returns `False`
and no step with a larger index is invoked. -/
theorem c4_fail_fast :
    ∀ (scripts : List String) (uc : Bool) (oc : Nat → RunOutcome)
      (expected i : Nat) (s : String),
      (i, s) ∈ (run_stack_processing scripts uc oc expected).2 →
      oc i ≠ RunOutcome.ok →
      (run_stack_processing scripts uc oc expected).1 = false ∧
      (∀ (j : Nat) (s' : String),
        (j, s') ∈ (run_stack_processing scripts uc oc expected).2 → j ≤ i) := by
  intro scripts uc oc expected i s hmem hnok
  by_cases hc : scripts.length ≠ expected ∧ uc = false
  · simp [run_stack_processing, if_pos hc] at hmem
  · simp only [run_stack_processing, if_neg hc] at hmem ⊢
    obtain ⟨hfail, hbound⟩ := runStackLoop_fail_fast scripts oc (List.range' 1 expected)
      (range'_pairwise_lt expected 1) i s hmem hnok
    exact ⟨by rw [hfail]; rfl, hbound⟩

/-- Witness for C4: step 3 of 5 fails; the run reports failure, step 3
was invoked, and step 4 was never invoked. -/
theorem c4_witness :
    (run_stack_processing scripts5 true oc3 5).1 = false ∧
    ¬ ((4, "run_04_a") ∈ (run_stack_processing scripts5 true oc3 5).2) := by
  have h := c4_fail_fast scripts5 true oc3 5 3 "run_03_a" (by decide) (by decide)
  exact ⟨h.1, fun hm => by have := h.2 4 "run_04_a" hm; omega⟩

/-- When every invocation succeeds, the loop completes, invokes exactly
the indices with a matching script — each running the first match — and
counts one success per invoked index. -/
theorem runStackLoop_all_ok (sc : List String) (oc : Nat → RunOutcome)
    (hok : ∀ i, oc i = RunOutcome.ok) :
    ∀ l : List Nat,
      runStackLoop sc oc l =
        (true,
         (l.filter (fun i => !(matchedScripts sc i).isEmpty)).length,
         (l.filter (fun i => !(matchedScripts sc i).isEmpty)).map
           (fun i => (i, (matchedScripts sc i).headD ""))) := by
  intro l
  induction l with
  | nil => simp [runStackLoop]
  | cons a rest ih =>
    cases hm : matchedScripts sc a with
    | nil =>
      simp [runStackLoop, hm, List.filter_cons, ih]
    | cons s0 tl =>
      simp [runStackLoop, hm, hok a, List.filter_cons, ih]

/-! ### C5 -/

/-- C5 (amended): in the parallel unzip batch, `successful + failed`
equals the number of input zip files; in the sequential step runner,
when the prompt is not cancelled and no invocation fails, the invoked
steps are exactly the indices in `1..expected` that have a matching
script, each executed once on the first matching script — found scripts
beyond the first match of an index are never executed. -/
theorem c5_outcome_accounting :
    (∀ (envf : String → UnzipEnv) (zips : List String) (td : String),
       (unzip_S1_SLC_list envf zips td).1 + (unzip_S1_SLC_list envf zips td).2 =
         zips.length) ∧
    (∀ (scripts : List String) (uc : Bool) (oc : Nat → RunOutcome) (expected : Nat),
       (∀ i, oc i = RunOutcome.ok) →
       (scripts.length = expected ∨ uc = true) →
       (run_stack_processing scripts uc oc expected).2 =
         ((List.range' 1 expected).filter
            (fun i => !(matchedScripts scripts i).isEmpty)).map
           (fun i => (i, (matchedScripts scripts i).headD ""))) := by
  constructor
  · intro envf zips td
    have hle : (unzipBatchResults envf zips td).countP (fun b => b) ≤
        (unzipBatchResults envf zips td).length :=
      List.countP_le_length (fun b => b)
    have hlen : (unzipBatchResults envf zips td).length = zips.length := by
      unfold unzipBatchResults
      exact List.length_map _ _
    simp only [unzip_S1_SLC_list]
    omega
  · intro scripts uc oc expected hok hcond
    have hnc : ¬(scripts.length ≠ expected ∧ uc = false) := by
      rcases hcond with h | h
      · exact fun hcc => hcc.1 h
      · exact fun hcc => by rw [h] at hcc; exact absurd hcc.2 (by simp)
    simp only [run_stack_processing, if_neg hnc, runStackLoop_all_ok scripts oc hok]

/-- Counterexample to C5 as stated: with two found scripts both matching
step 1 and every invocation succeeding, only the first script is ever
executed — two scripts are found among the expected ones, yet a single
execution happens, so not every found `run_*` script runs exactly once. -/
theorem c5_counterexample :
    (run_stack_processing ["run_01_a", "run_01_b"] true (fun _ => RunOutcome.ok) 2).2 =
      [(1, "run_01_a")] ∧
    foundAmongExpected ["run_01_a", "run_01_b"] 2 = 2 := by
  constructor
  · rfl
  · rfl

/-- Witness for the amended C5 at concrete inputs. -/
theorem c5_witness :
    (unzip_S1_SLC_list envfAllOk ["a.zip"] "t").1 +
      (unzip_S1_SLC_list envfAllOk ["a.zip"] "t").2 = 1 ∧
    (run_stack_processing ["run_01_a", "run_03_b"] true (fun _ => RunOutcome.ok) 3).2 =
      [(1, "run_01_a"), (3, "run_03_b")] := by
  refine ⟨c5_outcome_accounting.1 envfAllOk ["a.zip"] "t", ?_⟩
  rw [c5_outcome_accounting.2 ["run_01_a", "run_03_b"] true (fun _ => RunOutcome.ok) 3
    (fun _ => rfl) (Or.inr rfl)]
  rfl

/-! ### C9 -/

/-- C9 (amended): `run_stack_processing` returns `True` exactly when the
prompt was not cancelled, the loop ran to completion with no failing
step, and the success count equals the number of found scripts matching
some expected index (not `expected_files` itself); in particular a run
whose only script covers step 1 of 16 still returns `True`. -/
theorem c9_success_criterion :
    (∀ (scripts : List String) (uc : Bool) (oc : Nat → RunOutcome) (expected : Nat),
       (run_stack_processing scripts uc oc expected).1 = true ↔
         ((scripts.length = expected ∨ uc = true) ∧
          (runStackLoop scripts oc (List.range' 1 expected)).1 = true ∧
          (runStackLoop scripts oc (List.range' 1 expected)).2.1 =
            foundAmongExpected scripts expected)) ∧
    (run_stack_processing ["run_01_x"] true (fun _ => RunOutcome.ok) 16).1 = true := by
  constructor
  · intro scripts uc oc expected
    by_cases hc : scripts.length ≠ expected ∧ uc = false
    · simp only [run_stack_processing, if_pos hc]
      constructor
      · intro h; exact absurd h (by simp)
      · rintro ⟨hor, -, -⟩
        rcases hor with h | h
        · exact absurd h hc.1
        · rw [h] at hc; exact absurd hc.2 (by simp)
    · simp only [run_stack_processing, if_neg hc]
      have hor : scripts.length = expected ∨ uc = true := by
        by_cases hl : scripts.length = expected
        · exact Or.inl hl
        · cases hu : uc
          · exact absurd ⟨hl, hu⟩ hc
          · exact Or.inr rfl
      constructor
      · intro h
        rw [Bool.and_eq_true] at h
        exact ⟨hor, h.1, beq_iff_eq.mp h.2⟩
      · rintro ⟨-, h1, h2⟩
        rw [Bool.and_eq_true, h1, h2]
        exact ⟨rfl, beq_self_eq_true _⟩
  · rfl

/-- Counterexample to C9 as stated: one script matches both step 1 and
step 2; step 1 succeeds, step 2 fails, so the run aborts with one
completed step while exactly one found script matches the expected
indices — the counts are equal, yet the function returns `False`,
refuting the claimed equivalence. -/
theorem c9_counterexample :
    (run_stack_processing ["run_01_run_02_x"] true oc9 16).1 = false ∧
    (runStackLoop ["run_01_run_02_x"] oc9 (List.range' 1 16)).2.1 =
      foundAmongExpected ["run_01_run_02_x"] 16 := by
  constructor
  · rfl
  · rfl

/-! ### C3 -/

/-- C3 (amended): when the enumeration completes, it produces exactly
one download task per pair of a local file and a remote entry matching
that file's `[D-1, D+1]` window at the fixed character offsets — so the
task count is the sum over local files of their matching-entry counts —
and a file whose date matches no entry contributes no task.  The list is
not deduplicated: repeated dates or multiple matching entries yield
repeated tasks. -/
theorem c3_enumeration_count :
    ∀ (lst files : List String) (dir : String) (ts : List (String × String)),
      downloda_S1_SLC_orbit_tasks lst dir files = some ts →
      ts.length = (files.map (fun f => countMatchingEntries lst f)).sum ∧
      (∀ (f : String) (l : List (String × String)),
        countMatchingEntries lst f = 0 →
        orbitTasksForFile lst dir f = some l → l = []) := by
  intro lst files dir ts hts
  constructor
  · induction files generalizing ts with
    | nil =>
      simp only [downloda_S1_SLC_orbit_tasks, Option.some.injEq] at hts
      simp [← hts]
    | cons f fs ih =>
      rw [downloda_S1_SLC_orbit_tasks] at hts
      cases h1 : orbitTasksForFile lst dir f with
      | none => rw [h1] at hts; simp at hts
      | some t =>
        cases h2 : downloda_S1_SLC_orbit_tasks lst dir fs with
        | none => rw [h1, h2] at hts; simp at hts
        | some rest =>
          rw [h1, h2] at hts
          simp only [Option.some.injEq] at hts
          subst hts
          rw [List.length_append, List.map_cons, List.sum_cons, ih rest h2]
          congr 1
          unfold orbitTasksForFile at h1
          cases hed : extractDate f with
          | none => simp only [hed] at h1; exact Option.noConfusion h1
          | some ymd =>
            simp only [hed] at h1
            by_cases hg : ymd = (1, 1, 1) ∨ ymd = (9999, 12, 31)
            · rw [if_pos hg] at h1; simp at h1
            · rw [if_neg hg] at h1
              simp only [Option.some.injEq] at h1
              simp only [countMatchingEntries, windowStrings, hed]
              rw [← h1, List.length_map]
              exact (List.countP_eq_length_filter _ _).symm
  · intro f l hcount hsome
    unfold orbitTasksForFile at hsome
    cases hed : extractDate f with
    | none => simp only [hed] at hsome; exact Option.noConfusion hsome
    | some ymd =>
      simp only [hed] at hsome
      by_cases hg : ymd = (1, 1, 1) ∨ ymd = (9999, 12, 31)
      · rw [if_pos hg] at hsome; simp at hsome
      · rw [if_neg hg] at hsome
        simp only [Option.some.injEq] at hsome
        simp only [countMatchingEntries, windowStrings, hed] at hcount
        rw [List.countP_eq_length_filter, List.length_eq_zero] at hcount
        rw [← hsome, hcount]
        rfl

/-- Counterexample to C3 as stated: two distinct local files carry the
same date 2023-09-05 and one remote entry matches the window
`[2023-09-04, 2023-09-06]`, yet the enumeration emits the same task
twice — not one task for that date, and not a deduplicated set. -/
theorem c3_counterexample :
    downloda_S1_SLC_orbit_tasks [entry0] "orbits" [locA, locB] =
      some [taskE, taskE] ∧
    ¬ ([taskE, taskE] : List (String × String)).Nodup := by
  constructor
  · rfl
  · decide

/-- Witness for the amended C3 at the concrete listing and files. -/
theorem c3_witness :
    ([taskE, taskE] : List (String × String)).length =
      ([locA, locB].map (fun f => countMatchingEntries [entry0] f)).sum := by
  have h := c3_enumeration_count [entry0] [locA, locB] "orbits" [taskE, taskE] rfl
  exact h.1

/-! ### C6 -/

/-- C6 (amended): the RunStack entry point exits 0 exactly on a `True`
verdict and exits 1 on prompt cancellation; the DEM entry point exits 0
exactly when validation passes and the tool run succeeds; but the
orbit-download entry point always exits 0 — even when download tasks
fail — and the unzip entry point always exits 1, its first statement
calling the undefined `init_pysarlab`. -/
theorem c6_exit_codes :
    (∀ (tasks : List (String × String)) (fetchOk : String × String → Bool),
       orbit_main_exitcode tasks fetchOk = 0) ∧
    (∀ (scripts : List String) (uc : Bool) (oc : Nat → RunOutcome) (expected : Nat),
       (runstack_main_exitcode scripts uc oc expected = 0 ↔
          (run_stack_processing scripts uc oc expected).1 = true) ∧
       (scripts.length ≠ expected → uc = false →
          runstack_main_exitcode scripts uc oc expected = 1)) ∧
    (∀ (l1 l2 o1 o2 : ℚ) (toolOk : Bool),
       dem_main_exitcode l1 l2 o1 o2 toolOk = 0 ↔
         (validate_coordinates l1 l2 o1 o2 = true ∧ toolOk = true)) ∧
    unzip_main_exitcode = 1 := by
  refine ⟨fun _ _ => rfl, ?_, ?_, rfl⟩
  · intro scripts uc oc expected
    constructor
    · unfold runstack_main_exitcode
      cases hr : (run_stack_processing scripts uc oc expected).1 <;> simp [hr]
    · intro hne huc
      have hzero : run_stack_processing scripts uc oc expected = (false, []) := by
        unfold run_stack_processing
        rw [if_pos ⟨hne, huc⟩]
      unfold runstack_main_exitcode
      rw [hzero]
      rfl
  · intro l1 l2 o1 o2 toolOk
    unfold dem_main_exitcode dem_main_run download_S1_SLC_dem
    cases hv : validate_coordinates l1 l2 o1 o2 <;> cases ht : toolOk <;> simp [hv, ht]

/-- Counterexample to C6 as stated: a batch with one download task whose
fetch fails still makes the orbit entry point exit 0, not non-zero. -/
theorem c6_counterexample :
    downloda_S1_SLC_orbit_run [("u", "p")] (fun _ => false) = [false] ∧
    orbit_main_exitcode [("u", "p")] (fun _ => false) = 0 := by
  exact ⟨rfl, rfl⟩

/-- Witness for the amended C6 at concrete inputs. -/
theorem c6_witness :
    orbit_main_exitcode [("u", "p")] (fun _ => false) = 0 ∧
    runstack_main_exitcode ["run_01_a"] false (fun _ => RunOutcome.ok) 16 = 1 := by
  refine ⟨c6_exit_codes.1 [("u", "p")] (fun _ => false), ?_⟩
  exact (c6_exit_codes.2.1 ["run_01_a"] false (fun _ => RunOutcome.ok) 16).2
    (by decide) rfl

/-! ### C8 -/

/-- A passing validation forces every range condition. -/
theorem validate_coordinates_eq_true
    (l1 l2 o1 o2 : ℚ) (h : validate_coordinates l1 l2 o1 o2 = true) :
    l1 < l2 ∧ o1 < o2 ∧ -90 ≤ l1 ∧ l1 ≤ 90 ∧ -90 ≤ l2 ∧ l2 ≤ 90 ∧
    -180 ≤ o1 ∧ o1 ≤ 180 ∧ -180 ≤ o2 ∧ o2 ≤ 180 := by
  unfold validate_coordinates at h
  split_ifs at h with h1 h2 h3 h4
  push_neg at h1 h2 h3 h4
  obtain ⟨a1, a2, a3, a4⟩ := h3
  obtain ⟨b1, b2, b3, b4⟩ := h4
  exact ⟨h1, h2, a1, a2, a3, a4, b1, b2, b3, b4⟩

/-- C8: any coordinate violation — inverted latitude or longitude order,
or a value outside `[-90, 90]` respectively `[-180, 180]` — makes both
`validate_coordinates` functions reject, and the DEM entry point then
exits 1 without invoking the download (no work is started). -/
theorem c8_coordinate_validation :
    ∀ (l1 l2 o1 o2 : ℚ) (toolOk : Bool),
      (l2 ≤ l1 ∨ o2 ≤ o1 ∨ l1 < -90 ∨ 90 < l1 ∨ l2 < -90 ∨ 90 < l2 ∨
       o1 < -180 ∨ 180 < o1 ∨ o2 < -180 ∨ 180 < o2) →
      validate_coordinates l1 l2 o1 o2 = false ∧
      StackSentinel.validate_coordinates l1 l2 o1 o2 = false ∧
      dem_main_run l1 l2 o1 o2 toolOk = (1, false) := by
  intro l1 l2 o1 o2 toolOk h
  have hv : validate_coordinates l1 l2 o1 o2 = false := by
    cases hev : validate_coordinates l1 l2 o1 o2 with
    | false => rfl
    | true =>
      obtain ⟨c1, c2, c3, c4, c5, c6, c7, c8, c9, c10⟩ :=
        validate_coordinates_eq_true l1 l2 o1 o2 hev
      rcases h with h | h | h | h | h | h | h | h | h | h <;> linarith
  refine ⟨hv, hv, ?_⟩
  simp [dem_main_run, hv]

/-- Witness for C8: `lat_min = 10 ≥ lat_max = 5` is rejected and the DEM
entry point exits 1 with no work started. -/
theorem c8_witness :
    validate_coordinates 10 5 0 1 = false ∧
    StackSentinel.validate_coordinates 10 5 0 1 = false ∧
    dem_main_run 10 5 0 1 true = (1, false) :=
  c8_coordinate_validation 10 5 0 1 true (Or.inl (by norm_num))

end PyIntfLab
